import Mathlib

/-!
Verification of the event-bus and worker-lifecycle core of the repository.

Shallow embedding of:
  * `core/events/simple_bus.py` — `SimpleSignal`, the signal-group dataclasses
    and `SimpleEventBus.disconnect_all`;
  * `core/events/qt_bus.py` — the `_EventBusBackend.disconnect_all` loop;
  * `services/base_service.py` — `_setup_worker_thread`, `_cleanup_worker`,
    `start_worker`;
  * `workers/base_worker.py` — `BaseWorker.run`.

Handlers (Python callables) are represented by an arbitrary type `H` with
decidable equality (list membership tests in the source use `in` /
`not in`, i.e. `==` on the callbacks).  A handler's behaviour during an
emit is supplied as an interpretation function `run` mapping the handler
and the current state (the signal object itself plus a trace of the
invocations performed so far) to a new state and an optional exception,
mirroring the fact that a Python callback may mutate the signal it is
subscribed to (connect/disconnect during emit) and may raise.
-/

/-- `SimpleSignal` from `core/events/simple_bus.py`: holds the ordered
subscriber list `self._handlers`. -/
structure SimpleSignal (H : Type) where
  handlers : List H
deriving DecidableEq

/-- `SimpleSignal.connect`: `if handler not in self._handlers:
self._handlers.append(handler)`. -/
def SimpleSignal.connect {H : Type} [DecidableEq H] (s : SimpleSignal H) (h : H) :
    SimpleSignal H :=
  if h ∈ s.handlers then s else { handlers := s.handlers ++ [h] }

/-- `SimpleSignal.disconnect`: with no argument clears every subscriber
(`self._handlers.clear()`); with a handler, removes its first occurrence if
present (`self._handlers.remove(handler)`), and is a no-op otherwise. -/
def SimpleSignal.disconnect {H : Type} [DecidableEq H] (s : SimpleSignal H)
    (h : Option H) : SimpleSignal H :=
  match h with
  | none => { handlers := [] }
  | some h => if h ∈ s.handlers then { handlers := s.handlers.erase h } else s

/-- The loop body of `SimpleSignal.emit`: `for h in list(self._handlers):
h(*args, **kwargs)`.  The iteration list is the snapshot passed in as the
first argument; the state (signal object plus invocation trace) is threaded
through the handler interpretation `run`.  A handler returning `some e`
models a Python callback raising: the loop is abandoned and the exception
propagates (there is no try/except around the call in the source). -/
def emitRun {H E : Type}
    (run : H → SimpleSignal H × List H → (SimpleSignal H × List H) × Option E) :
    List H → SimpleSignal H × List H → (SimpleSignal H × List H) × Option E
  | [], st => (st, none)
  | h :: rest, st =>
    match run h st with
    | (st', none) => emitRun run rest st'
    | (st', some e) => (st', some e)

/-- `SimpleSignal.emit`: takes the snapshot `list(self._handlers)` at entry
and iterates `emitRun` over it, starting from the current signal object and
the given prior invocation trace. -/
def SimpleSignal.emit {H E : Type}
    (run : H → SimpleSignal H × List H → (SimpleSignal H × List H) × Option E)
    (s : SimpleSignal H) (tr : List H) :
    (SimpleSignal H × List H) × Option E :=
  emitRun run s.handlers (s, tr)

/-- A concrete handler interpretation: every callback records its own
invocation and disconnects the callback `2` from the signal it is
subscribed to (so a callback disconnects itself or another mid-emit). -/
def runDisconnects :
    Nat → SimpleSignal Nat × List Nat → (SimpleSignal Nat × List Nat) × Option Unit :=
  fun h p => ((p.1.disconnect (some 2), p.2 ++ [h]), none)

/-- A concrete handler interpretation: every callback records its own
invocation and connects the callback `g` to the signal mid-emit. -/
def runConnects (g : Nat) :
    Nat → SimpleSignal Nat × List Nat → (SimpleSignal Nat × List Nat) × Option Unit :=
  fun h p => ((p.1.connect g, p.2 ++ [h]), none)

/-- A concrete handler interpretation: callback `1` raises (message
`"boom"`) after running; every other callback records its invocation and
returns normally. -/
def runE :
    Nat → SimpleSignal Nat × List Nat → (SimpleSignal Nat × List Nat) × Option String :=
  fun h p =>
    if h = 1 then ((p.1, p.2 ++ [h]), some "boom")
    else ((p.1, p.2 ++ [h]), none)

/-- A concrete handler interpretation: every callback just records its own
invocation and returns normally. -/
def runRecord :
    Nat → SimpleSignal Nat × List Nat → (SimpleSignal Nat × List Nat) × Option Unit :=
  fun h p => ((p.1, p.2 ++ [h]), none)

/-- Signal group `_Log` of `simple_bus.py` (one `message` signal). -/
structure _Log (H : Type) where
  message : SimpleSignal H
deriving DecidableEq

/-- Signal group `_Data` of `simple_bus.py`. -/
structure _Data (H : Type) where
  sequence_activity_changed : SimpleSignal H
  sequence_data_loaded : SimpleSignal H
deriving DecidableEq

/-- Signal group `_System` of `simple_bus.py`. -/
structure _System (H : Type) where
  system_error_occurred : SimpleSignal H
  system_notification_received : SimpleSignal H
deriving DecidableEq

/-- `SimpleEventBus.__init__`: one instance of each group, and
`self._signal_groups = [self.system, self.log, self.data]`. -/
structure SimpleEventBus (H : Type) where
  system : _System H
  log : _Log H
  data : _Data H
deriving DecidableEq

/-- The per-attribute body of the `disconnect_all` loop: the attribute `attr`
holding a `SimpleSignal` is cleared (`sig.disconnect()`) when no filter is
given or when the attribute name equals the requested `signal_name`, and is
left untouched otherwise. -/
def clearIf {H : Type} [DecidableEq H] (signal_name : Option String)
    (attr : String) (s : SimpleSignal H) : SimpleSignal H :=
  match signal_name with
  | none => s.disconnect none
  | some n => if attr = n then s.disconnect none else s

/-- `SimpleEventBus.disconnect_all`: iterates every group in
`self._signal_groups`, and every attribute of the group that is a
`SimpleSignal`, applying the name filter to each.  The five signal-valued
attributes of the three groups are enumerated statically here; the
iteration order used by `dir()` is irrelevant because the attributes are
handled independently. -/
def SimpleEventBus.disconnect_all {H : Type} [DecidableEq H]
    (b : SimpleEventBus H) (signal_name : Option String) : SimpleEventBus H :=
  { system :=
      { system_error_occurred :=
          clearIf signal_name "system_error_occurred" b.system.system_error_occurred,
        system_notification_received :=
          clearIf signal_name "system_notification_received" b.system.system_notification_received },
    log := { message := clearIf signal_name "message" b.log.message },
    data :=
      { sequence_activity_changed :=
          clearIf signal_name "sequence_activity_changed" b.data.sequence_activity_changed,
        sequence_data_loaded :=
          clearIf signal_name "sequence_data_loaded" b.data.sequence_data_loaded } }

/-- Signal group `SystemSignals` of `qt_bus.py`.  A Qt signal's connection
list is modelled like a `SimpleSignal` subscriber list. -/
structure SystemSignals (H : Type) where
  system_error_occurred : SimpleSignal H
  system_notification_received : SimpleSignal H
deriving DecidableEq

/-- Signal group `LogSignals` of `qt_bus.py`. -/
structure LogSignals (H : Type) where
  message : SimpleSignal H
deriving DecidableEq

/-- Signal group `DataSignals` of `qt_bus.py`. -/
structure DataSignals (H : Type) where
  sequence_activity_changed : SimpleSignal H
  sequence_data_loaded : SimpleSignal H
deriving DecidableEq

/-- `_EventBusBackend.__init__` of `qt_bus.py`: one instance of each group,
collected in `self._signal_groups`. -/
structure _EventBusBackend (H : Type) where
  system : SystemSignals H
  log : LogSignals H
  data : DataSignals H
deriving DecidableEq

/-- `_EventBusBackend.disconnect_all` of `qt_bus.py`: iterates every group's
meta-object methods, keeps the ones of type `Signal`, and for every signal
whose name matches the filter (or all, with no filter) calls
`sig.disconnect()`, which severs every connection; the `TypeError` raised by
Qt when disconnecting a signal with no connections is swallowed, so the net
per-signal effect is exactly `clearIf`. -/
def _EventBusBackend.disconnect_all {H : Type} [DecidableEq H]
    (b : _EventBusBackend H) (signal_name : Option String) : _EventBusBackend H :=
  { system :=
      { system_error_occurred :=
          clearIf signal_name "system_error_occurred" b.system.system_error_occurred,
        system_notification_received :=
          clearIf signal_name "system_notification_received" b.system.system_notification_received },
    log := { message := clearIf signal_name "message" b.log.message },
    data :=
      { sequence_activity_changed :=
          clearIf signal_name "sequence_activity_changed" b.data.sequence_activity_changed,
        sequence_data_loaded :=
          clearIf signal_name "sequence_data_loaded" b.data.sequence_data_loaded } }

/-- A heap of `SimpleSignal` objects, addressed by allocation index.  Used to
model Python object identity: two buses that hold the same address share the
same mutable signal object. -/
abbrev Store (H : Type) := Nat → SimpleSignal H

/-- Overwrite the signal object stored at address `r`. -/
def writeRef {H : Type} (st : Store H) (r : Nat) (s : SimpleSignal H) : Store H :=
  fun r' => if r' = r then s else st r'

/-- `sig.connect(handler)` performed through the reference `r`: mutates the
signal object at that address in place. -/
def connectAt {H : Type} [DecidableEq H] (st : Store H) (r : Nat) (h : H) :
    Store H :=
  writeRef st r ((st r).connect h)

/-- `SimpleSignal()` — allocation of a fresh signal object on the heap. -/
structure World (H : Type) where
  store : Store H
  next : Nat

/-- Evaluating the expression `SimpleSignal()`: returns the address of a
fresh, empty signal object and the advanced heap. -/
def SimpleSignal.alloc {H : Type} (w : World H) : Nat × World H :=
  (w.next,
   { store := writeRef w.store w.next { handlers := [] }, next := w.next + 1 })

/-- The five signal-valued attributes of a `SimpleEventBus`, by address.
Field order: the two `_System` signals, the `_Log` signal, the two `_Data`
signals. -/
structure SimpleEventBusRefs where
  system_error_occurred : Nat
  system_notification_received : Nat
  message : Nat
  sequence_activity_changed : Nat
  sequence_data_loaded : Nat
deriving DecidableEq

/-- Import-time evaluation of `simple_bus.py`: each dataclass field default
`message: SimpleSignal = SimpleSignal()` (and likewise for the other four
fields) is evaluated exactly once, when the dataclass body is executed at
class-definition time.  The five resulting objects are the class-level
defaults shared by every subsequently constructed instance. -/
def moduleLoad (w0 : World Nat) : SimpleEventBusRefs × World Nat :=
  let a1 := SimpleSignal.alloc w0
  let a2 := SimpleSignal.alloc a1.2
  let a3 := SimpleSignal.alloc a2.2
  let a4 := SimpleSignal.alloc a3.2
  let a5 := SimpleSignal.alloc a4.2
  (⟨a1.1, a2.1, a3.1, a4.1, a5.1⟩, a5.2)

/-- The heap before `simple_bus.py` is imported. -/
def initialWorld : World Nat := { store := fun _ => { handlers := [] }, next := 0 }

/-- The class-level default signal objects of the three dataclasses, produced
by importing the module once. -/
def classDefaults : SimpleEventBusRefs := (moduleLoad initialWorld).1

/-- `SimpleEventBus.__init__`: `self.system = _System(); self.log = _Log();
self.data = _Data()`.  Each no-argument dataclass constructor fills its
signal fields from the class-level defaults; no new `SimpleSignal` object is
allocated, so the heap is returned unchanged and every constructed bus
holds the same five addresses. -/
def SimpleEventBus.init (w : World Nat) : SimpleEventBusRefs × World Nat :=
  (classDefaults, w)

/-- The `disconnect_all` loop of `SimpleEventBus` executed against the heap:
for each of the bus instance's five signal-valued attributes, the signal
object at that address is cleared when the name filter matches. -/
def clearRefIf {H : Type} [DecidableEq H] (signal_name : Option String)
    (attr : String) (r : Nat) (st : Store H) : Store H :=
  match signal_name with
  | none => writeRef st r ((st r).disconnect none)
  | some n => if attr = n then writeRef st r ((st r).disconnect none) else st

/-- `b.disconnect_all(signal_name)` acting on the heap through the addresses
held by the bus instance `b`. -/
def disconnectAllRefs {H : Type} [DecidableEq H] (b : SimpleEventBusRefs)
    (signal_name : Option String) (st : Store H) : Store H :=
  clearRefIf signal_name "sequence_data_loaded" b.sequence_data_loaded
    (clearRefIf signal_name "sequence_activity_changed" b.sequence_activity_changed
      (clearRefIf signal_name "message" b.message
        (clearRefIf signal_name "system_notification_received" b.system_notification_received
          (clearRefIf signal_name "system_error_occurred" b.system_error_occurred st))))

/-- The observable operations `BaseService` performs on `QThread` objects,
recorded in order.  `wait t (some ms)` is the bounded `wait(ms)`; `wait t
none` is the unbounded `wait()` used after `terminate()`. -/
inductive ThreadAct where
  | moveToThread (w t : Nat)
  | startThread (t : Nat)
  | requestInterruption (t : Nat)
  | quit (t : Nat)
  | wait (t : Nat) (ms : Option Nat)
  | terminate (t : Nat)
deriving DecidableEq

/-- Recognizes the forced-termination call `thread.terminate()`. -/
def isTerminate : ThreadAct → Bool
  | ThreadAct.terminate _ => true
  | ThreadAct.moveToThread _ _ => false
  | ThreadAct.startThread _ => false
  | ThreadAct.requestInterruption _ => false
  | ThreadAct.quit _ => false
  | ThreadAct.wait _ _ => false

/-- The modelled state of one `QThread` object.  `deleted` marks a thread
whose C++ object has been destroyed (`deleteLater` processed), on which
`isRunning()` raises `RuntimeError`. -/
structure ThreadSt where
  running : Bool
  deleted : Bool
deriving DecidableEq

/-- The state of a `BaseService` together with its thread environment.

  * `active_workers` — `self._active_workers`, the registry mapping
    `worker_id` to the `(QThread, worker)` pair (threads and workers are
    identified by allocation number);
  * `threads` — the state of every thread object by identity;
  * `nextThread` — next fresh thread identity for `QThread()`;
  * `actions` — the ordered record of thread operations performed;
  * `logs` — the levels/tags of the log lines emitted through the bus;
  * `env` — per thread, whether it cooperatively stops within the bounded
    `wait(1000)` that follows `requestInterruption(); quit()` (an
    environmental fact about the running worker, not a service decision). -/
structure ServiceState where
  active_workers : List (String × Nat × Nat)
  threads : Nat → ThreadSt
  nextThread : Nat
  actions : List ThreadAct
  logs : List String
  env : Nat → Bool

/-- Dictionary lookup `self._active_workers[worker_id]` (with the preceding
`worker_id in self._active_workers` membership test: `none` means absent). -/
def lookupW : List (String × Nat × Nat) → String → Option (Nat × Nat)
  | [], _ => none
  | e :: rest, key => if e.1 = key then some (e.2.1, e.2.2) else lookupW rest key

/-- Dictionary store `self._active_workers[worker_id] = (thread, worker)`:
replaces the binding when the key is present, appends it otherwise. -/
def insertW (l : List (String × Nat × Nat)) (key : String) (t w : Nat) :
    List (String × Nat × Nat) :=
  match l with
  | [] => [(key, t, w)]
  | e :: rest => if e.1 = key then (key, t, w) :: rest else e :: insertW rest key t w

/-- Dictionary deletion `del self._active_workers[worker_id]`: removes the
binding for the key (dictionary keys are unique, so dropping every pair with
that key models deleting its single binding). -/
def eraseW : List (String × Nat × Nat) → String → List (String × Nat × Nat)
  | [], _ => []
  | e :: rest, key => if e.1 = key then eraseW rest key else e :: eraseW rest key

/-- `worker_id in self._active_workers`. -/
def containsW (l : List (String × Nat × Nat)) (key : String) : Bool :=
  (lookupW l key).isSome

/-- Pointwise update of the thread map. -/
def setThread (f : Nat → ThreadSt) (t : Nat) (s : ThreadSt) : Nat → ThreadSt :=
  fun t' => if t' = t then s else f t'

/-- Python truthiness of the `worker_id` argument: `if worker_id ...` treats
both `None` and the empty string as absent. -/
def truthyId : Option String → Option String
  | some k => if k = "" then none else some k
  | none => none

/-- Step 2 of `_cleanup_worker` (`base_service.py` lines 162-181): the
try-block that stops `target_thread`.  On a deleted thread object,
`isRunning()` raises `RuntimeError`, which is caught and logged.  On a
running thread: with `force`, `terminate()` then unbounded `wait()` (the
thread is gone afterwards); without `force`, `requestInterruption()`,
`quit()` and a bounded `wait(1000)` whose outcome is the environmental fact
`env t` — when the thread does not confirm within the second, only a warning
is logged and the thread is left running. -/
def stopTarget (st : ServiceState) (target : Option Nat) (force : Bool) :
    ServiceState :=
  match target with
  | none => st
  | some t =>
    if (st.threads t).deleted then
      { st with logs := st.logs ++ ["INFO:already-deleted-thread"] }
    else if (st.threads t).running then
      let st1 := { st with logs := st.logs ++ ["INFO:stop-requested"] }
      if force then
        { st1 with
          threads := setThread st1.threads t { st1.threads t with running := false },
          actions := st1.actions ++ [ThreadAct.terminate t, ThreadAct.wait t none],
          logs := st1.logs ++ ["WARNING:emergency-terminate"] }
      else
        { st1 with
          threads :=
            if st1.env t then
              setThread st1.threads t { st1.threads t with running := false }
            else st1.threads,
          actions :=
            st1.actions ++
              [ThreadAct.requestInterruption t, ThreadAct.quit t, ThreadAct.wait t (some 1000)],
          logs := if st1.env t then st1.logs else st1.logs ++ ["WARNING:thread-not-responding"] }
    else st

/-- `BaseService._cleanup_worker` (`base_service.py` lines 131-186).

Step 1: when a (truthy) `worker_id` is registered, the stored pair is
fetched; a missing `thread` argument defaults to the stored thread; if the
target thread differs from the stored one, a newer task has replaced the
entry, so the cleanup logs a warning and returns without touching anything.
Step 2: the target thread is stopped (`stopTarget`).  Step 3: if the key is
(still) registered, its binding is deleted. -/
def cleanup_worker (st : ServiceState) (thread worker : Option Nat)
    (worker_id : Option String) (force : Bool) : ServiceState :=
  match truthyId worker_id with
  | some k =>
    match lookupW st.active_workers k with
    | some stw =>
      let target := match thread with | some t => t | none => stw.1
      if target ≠ stw.1 then
        { st with logs := st.logs ++ ["WARNING:stale-cleanup-skipped"] }
      else
        let st1 := stopTarget st (some target) force
        if containsW st1.active_workers k then
          { st1 with
            active_workers := eraseW st1.active_workers k,
            logs := st1.logs ++ ["INFO:removed-from-registry"] }
        else st1
    | none => stopTarget st thread force
  | none => stopTarget st thread force

/-- Steps 1-5 of `_setup_worker_thread` after the duplicate check
(`base_service.py` lines 90-129): a fresh `QThread()` is created (not yet
running), the worker is moved onto it, the completion/error signals are
wired (their effects are modelled by `fireTaskFinished` and
`fireErrorOccurred` below, which receive the values captured here), and the
pair is registered under a truthy `worker_id`. -/
def finish_setup (st : ServiceState) (worker : Nat) (worker_id : Option String) :
    ServiceState × Option (Nat × Nat) :=
  let t := st.nextThread
  let st1 :=
    { st with
      nextThread := t + 1,
      threads := setThread st.threads t { running := false, deleted := false },
      actions := st.actions ++ [ThreadAct.moveToThread worker t] }
  match truthyId worker_id with
  | some k =>
    ({ st1 with
       active_workers := insertW st1.active_workers k t worker,
       logs := st1.logs ++ ["INFO:worker-registered"] }, some (t, worker))
  | none => (st1, some (t, worker))

/-- `BaseService._setup_worker_thread` (`base_service.py` lines 46-129).
Step 0: when a truthy `worker_id` already has a registry entry whose thread
is still running, the request is either rejected (`force_interrupt=False`:
warning log, `None` returned) or the existing task is torn down through
`_cleanup_worker(worker_id=worker_id)` — the graceful, non-`force` path —
before proceeding; a registered but no-longer-running thread is cleaned up
silently.  The model assumes the registered thread object is alive (the
`isRunning()` call on line 72 is not guarded against `RuntimeError`). -/
def setup_worker_thread (st : ServiceState) (worker : Nat)
    (worker_id : Option String) (force_interrupt : Bool) :
    ServiceState × Option (Nat × Nat) :=
  match truthyId worker_id with
  | some k =>
    match lookupW st.active_workers k with
    | some stw =>
      if (st.threads stw.1).running then
        if force_interrupt then
          finish_setup
            (cleanup_worker
              { st with logs := st.logs ++ ["WARNING:interrupting-existing-worker"] }
              none none (some k) false)
            worker worker_id
        else
          ({ st with logs := st.logs ++ ["WARNING:duplicate-start-ignored"] }, none)
      else
        finish_setup (cleanup_worker st none none (some k) false) worker worker_id
    | none => finish_setup st worker worker_id
  | none => finish_setup st worker worker_id

/-- `BaseService.start_worker` (`base_service.py` lines 191-226): runs the
setup, returns `None` on rejection; otherwise connects `thread.started` to
`worker.run` (a `BaseWorker` always has `run`) and calls `thread.start()`,
after which the thread is running. -/
def start_worker (st : ServiceState) (worker : Nat) (worker_id : Option String)
    (force_interrupt : Bool) : ServiceState × Option Nat :=
  match setup_worker_thread st worker worker_id force_interrupt with
  | (st1, none) => (st1, none)
  | (st1, some tw) =>
    ({ st1 with
       threads := setThread st1.threads tw.1 { st1.threads tw.1 with running := true },
       actions := st1.actions ++ [ThreadAct.startThread tw.1] },
     some tw.1)

/-- Firing `worker_task_finished` for a worker wired by
`_setup_worker_thread` (lines 112-122), with the thread, worker and id
captured at wiring time: the connected slots run in connection order —
`thread.quit` (the worker body has returned, so the captured thread's event
loop exits and it stops running), `worker.deleteLater` and the deferred
`thread.deleteLater` (no immediate effect before the cleanup slot runs), and
finally `self._cleanup_worker(thread=thread, worker=worker,
worker_id=worker_id)`. -/
def fireTaskFinished (st : ServiceState) (captThread captWorker : Nat)
    (captId : Option String) : ServiceState :=
  let st1 :=
    { st with
      threads := setThread st.threads captThread { st.threads captThread with running := false },
      actions := st.actions ++ [ThreadAct.quit captThread] }
  cleanup_worker st1 (some captThread) (some captWorker) captId false

/-- Firing `worker_error_occurred` for a worker wired by
`_setup_worker_thread` (lines 97-103), with the id captured at wiring time:
the first connected slot logs the error, the second calls
`self._cleanup_worker(worker_id=worker_id)` — passing only the id, not the
thread or worker that failed. -/
def fireErrorOccurred (st : ServiceState) (captId : Option String)
    (msg : String) : ServiceState :=
  let st1 := { st with logs := st.logs ++ ["ERROR:" ++ msg] }
  cleanup_worker st1 none none captId false

/-- The two completion signals a `BaseWorker` can emit from `run`. -/
inductive Emission where
  | finished
  | errorOccurred (msg : String)
deriving DecidableEq

/-- `BaseWorker.run` (`base_worker.py` lines 42-48): the body `process()`
either returns or raises (`Except.error` carries `str(e)`); a raising body
is caught at the worker boundary and converted into a single
`worker_error_occurred` emission, a returning body into a single
`worker_task_finished` emission.  The function is total: no exception
propagates out of `run`. -/
def BaseWorker.run (process : Except String Unit) : List Emission :=
  match process with
  | Except.ok _ => [Emission.finished]
  | Except.error e => [Emission.errorOccurred e]

/-- A fresh service: empty registry, no thread running.  Thread `0` (the one
the first start will create) does not confirm termination within the bounded
wait — it is the worker that is still busy when it gets replaced; every
other thread stops cooperatively. -/
def st0 : ServiceState :=
  { active_workers := [],
    threads := fun _ => { running := false, deleted := false },
    nextThread := 0,
    actions := [],
    logs := [],
    env := fun t => t != 0 }

/-- Worker `100` started under key `"k"`: thread `0` is running and the
registry maps `"k"` to `(0, 100)`. -/
def afterStartA : ServiceState := (start_worker st0 100 (some "k") false).1

/-- A `force_interrupt` start of worker `101` under the same key `"k"` while
worker `100` is still running: the old thread `0` is asked to stop
gracefully (it does not confirm), the entry is replaced, and the new thread
`1` is started.  This is the replacement state of the §4.3 race. -/
def raceState : ServiceState := (start_worker afterStartA 101 (some "k") true).1

/-- A service with one registered worker: key `"k"` maps to thread `0` and
worker `100`, thread `0` is running and does not confirm termination within
the bounded wait. -/
def stRunning : ServiceState :=
  { active_workers := [("k", 0, 100)],
    threads := fun _ => { running := true, deleted := false },
    nextThread := 1,
    actions := [],
    logs := [],
    env := fun _ => false }

/-! ## Helper lemmas -/

lemma connect_mem_self {H : Type} [DecidableEq H] (s : SimpleSignal H) (h : H) :
    h ∈ (s.connect h).handlers := by
  unfold SimpleSignal.connect
  by_cases hm : h ∈ s.handlers
  · simp [hm]
  · simp [hm]

lemma connect_idem {H : Type} [DecidableEq H] (s : SimpleSignal H) (h : H) :
    (s.connect h).connect h = s.connect h := by
  by_cases hm : h ∈ s.handlers
  · simp [SimpleSignal.connect, hm]
  · simp [SimpleSignal.connect, hm]

lemma emitRun_ok {H E : Type}
    (run : H → SimpleSignal H × List H → (SimpleSignal H × List H) × Option E)
    (hrun : ∀ h sg tr, ∃ sg', run h (sg, tr) = ((sg', tr ++ [h]), none)) :
    ∀ (hs : List H) (sg : SimpleSignal H) (tr : List H),
      ∃ sg', emitRun run hs (sg, tr) = ((sg', tr ++ hs), none) := by
  intro hs
  induction hs with
  | nil => intro sg tr; exact ⟨sg, by simp [emitRun]⟩
  | cons h rest ih =>
    intro sg tr
    obtain ⟨sg1, h1⟩ := hrun h sg tr
    obtain ⟨sg2, h2⟩ := ih sg1 (tr ++ [h])
    refine ⟨sg2, ?_⟩
    simp only [emitRun, h1, h2]
    simp

lemma emitRun_stop_at_error {H E : Type}
    (run : H → SimpleSignal H × List H → (SimpleSignal H × List H) × Option E)
    (e : E) (b : H)
    (hb : ∀ sg tr, ∃ sg', run b (sg, tr) = ((sg', tr ++ [b]), some e)) :
    ∀ (pre : List H),
      (∀ h ∈ pre, ∀ sg tr, ∃ sg', run h (sg, tr) = ((sg', tr ++ [h]), none)) →
      ∀ (post : List H) (sg : SimpleSignal H) (tr : List H),
        ∃ sg', emitRun run (pre ++ b :: post) (sg, tr) =
          ((sg', (tr ++ pre) ++ [b]), some e) := by
  intro pre
  induction pre with
  | nil =>
    intro _ post sg tr
    obtain ⟨sg1, h1⟩ := hb sg tr
    exact ⟨sg1, by simp only [List.nil_append, emitRun, h1]; simp⟩
  | cons h rest ih =>
    intro hall post sg tr
    obtain ⟨sg1, h1⟩ := hall h (by simp) sg tr
    obtain ⟨sg2, h2⟩ := ih (fun x hx => hall x (by simp [hx])) post sg1 (tr ++ [h])
    refine ⟨sg2, ?_⟩
    rw [List.cons_append]
    simp only [emitRun, h1]
    rw [show tr ++ h :: rest ++ [b] = tr ++ [h] ++ rest ++ [b] by simp]
    exact h2

lemma runConnects_emitRun (g : Nat) :
    ∀ (hs : List Nat) (sg : SimpleSignal Nat) (tr : List Nat),
      emitRun (runConnects g) hs (sg.connect g, tr) =
        ((sg.connect g, tr ++ hs), none) := by
  intro hs
  induction hs with
  | nil => intro sg tr; simp [emitRun]
  | cons h rest ih =>
    intro sg tr
    simp only [emitRun, runConnects, connect_idem]
    rw [ih sg (tr ++ [h])]
    simp

lemma runConnects_emit_nonempty (g h0 : Nat) (rest : List Nat)
    (s : SimpleSignal Nat) (hh : s.handlers = h0 :: rest) :
    SimpleSignal.emit (runConnects g) s [] = ((s.connect g, s.handlers), none) := by
  unfold SimpleSignal.emit
  rw [hh]
  simp only [emitRun, runConnects, List.nil_append]
  rw [runConnects_emitRun g rest s [h0]]
  simp

lemma stopTarget_registry (st : ServiceState) (target : Option Nat)
    (force : Bool) :
    (stopTarget st target force).active_workers = st.active_workers := by
  unfold stopTarget
  cases target with
  | none => rfl
  | some t =>
    by_cases hd : (st.threads t).deleted
    · simp [hd]
    · by_cases hr : (st.threads t).running
      · cases force <;> simp [hd, hr]
      · simp [hd, hr]

lemma lookupW_eraseW (l : List (String × Nat × Nat)) (k : String) :
    lookupW (eraseW l k) k = none := by
  induction l with
  | nil => rfl
  | cons e rest ih =>
    by_cases he : e.1 = k
    · simp [eraseW, he, ih]
    · simp [eraseW, lookupW, he, ih]

lemma clearIf_some {H : Type} [DecidableEq H] (n attr : String) (s : SimpleSignal H) :
    (clearIf (some n) attr s).handlers = if attr = n then [] else s.handlers := by
  unfold clearIf
  by_cases h : attr = n <;> simp [h, SimpleSignal.disconnect]

lemma clearIf_none {H : Type} [DecidableEq H] (attr : String) (s : SimpleSignal H) :
    (clearIf none attr s).handlers = [] := rfl

lemma clearRefIf_ne {H : Type} [DecidableEq H] {n attr : String} (hne : attr ≠ n)
    (r : Nat) (st : Store H) : clearRefIf (some n) attr r st = st := by
  simp [clearRefIf, hne]

lemma clearRefIf_eq_read {H : Type} [DecidableEq H] (n : String) (r : Nat)
    (st : Store H) : clearRefIf (some n) n r st r = { handlers := [] } := by
  simp [clearRefIf, writeRef, SimpleSignal.disconnect]

lemma classDefaults_eq : classDefaults = ⟨0, 1, 2, 3, 4⟩ := rfl

/-! ## Claim theorems -/

/-- C6: for every Signal and every emit call, each handler connected at the
moment emit begins is invoked exactly once, in the order the handlers were
connected, even when a handler invoked during the emit disconnects itself or
another handler (or otherwise mutates the signal): for any handler
interpretation that records exactly its own invocation and returns normally
(while changing the signal arbitrarily), the invocation trace produced by
`emit` is exactly the snapshot `s.handlers` taken at emit time, in order. -/
theorem emit_invokes_snapshot_in_order {H E : Type}
    (run : H → SimpleSignal H × List H → (SimpleSignal H × List H) × Option E)
    (hrun : ∀ h sg tr, ∃ sg', run h (sg, tr) = ((sg', tr ++ [h]), none))
    (s : SimpleSignal H) (tr : List H) :
    ∃ sg', SimpleSignal.emit run s tr = ((sg', tr ++ s.handlers), none) :=
  emitRun_ok run hrun s.handlers s tr

theorem emit_invokes_snapshot_in_order_witness :
    ∃ sg', SimpleSignal.emit runDisconnects { handlers := [1, 2, 3] } [] =
      ((sg', [1, 2, 3]), none) :=
  emit_invokes_snapshot_in_order runDisconnects
    (fun h sg tr => ⟨sg.disconnect (some 2), rfl⟩) { handlers := [1, 2, 3] } []

/-- C10: a handler connected to a Signal by a callback running during an
emit is not invoked within that same emit — the snapshot taken at emit time
excludes it — and it is first invoked on the next emit: with every callback
connecting `g` mid-emit, the current emit's trace is exactly the old
snapshot (which does not contain `g`), `g` is subscribed afterwards, and the
next emit's trace is the new snapshot, which contains `g`. -/
theorem connect_during_emit_deferred (g h0 : Nat) (rest : List Nat)
    (s : SimpleSignal Nat) (hh : s.handlers = h0 :: rest) (hg : g ∉ s.handlers) :
    SimpleSignal.emit (runConnects g) s [] = ((s.connect g, s.handlers), none)
    ∧ g ∉ s.handlers
    ∧ g ∈ (s.connect g).handlers
    ∧ SimpleSignal.emit (runConnects g) (s.connect g) [] =
        ((s.connect g, (s.connect g).handlers), none)
    ∧ g ∈ (s.connect g).handlers := by
  have hch : (s.connect g).handlers = h0 :: (rest ++ [g]) := by
    rw [hh] at hg
    unfold SimpleSignal.connect
    rw [hh]
    simp [hg]
  have h2 := runConnects_emit_nonempty g h0 (rest ++ [g]) (s.connect g) hch
  rw [connect_idem] at h2
  exact ⟨runConnects_emit_nonempty g h0 rest s hh, hg, connect_mem_self s g, h2,
    connect_mem_self s g⟩

theorem connect_during_emit_deferred_witness :
    SimpleSignal.emit (runConnects 9) { handlers := [1, 2] } [] =
      (({ handlers := [1, 2, 9] }, [1, 2]), none)
    ∧ 9 ∉ ({ handlers := [1, 2] } : SimpleSignal Nat).handlers
    ∧ 9 ∈ ({ handlers := [1, 2, 9] } : SimpleSignal Nat).handlers
    ∧ SimpleSignal.emit (runConnects 9) { handlers := [1, 2, 9] } [] =
        (({ handlers := [1, 2, 9] }, [1, 2, 9]), none)
    ∧ 9 ∈ ({ handlers := [1, 2, 9] } : SimpleSignal Nat).handlers :=
  connect_during_emit_deferred 9 1 [2] { handlers := [1, 2] } rfl (by decide)

/-- C2 counterexample: the source emit loop has no per-callback exception
isolation.  With handlers `[0, 1, 2]` and handler `1` raising, `emit`
invokes only `[0, 1]` — handler `2`, connected at emit time and positioned
after the raising handler, is never invoked — and the exception propagates
out of `emit` (the result carries `some "boom"`).  This falsifies the claim
that later handlers still run and that the exception does not escape. -/
theorem emit_handler_exception_counterexample :
    SimpleSignal.emit runE { handlers := [0, 1, 2] } [] =
      (({ handlers := [0, 1, 2] }, [0, 1]), some "boom")
    ∧ 2 ∉ [0, 1] := by
  decide

/-- C2 amended: if a handler raises during `emit` of the Inline backend, the
exception propagates out of `emit` and the handlers after it in the
emit-time snapshot are not invoked; exactly the handlers up to and
including the raising one have run, in order. -/
theorem emit_stops_at_first_raising_handler {H E : Type}
    (run : H → SimpleSignal H × List H → (SimpleSignal H × List H) × Option E)
    (e : E) (b : H) (pre post : List H) (s : SimpleSignal H) (tr : List H)
    (hs : s.handlers = pre ++ b :: post)
    (hpre : ∀ h ∈ pre, ∀ sg tr', ∃ sg', run h (sg, tr') = ((sg', tr' ++ [h]), none))
    (hb : ∀ sg tr', ∃ sg', run b (sg, tr') = ((sg', tr' ++ [b]), some e)) :
    ∃ sg', SimpleSignal.emit run s tr = ((sg', (tr ++ pre) ++ [b]), some e) := by
  unfold SimpleSignal.emit
  rw [hs]
  exact emitRun_stop_at_error run e b hb pre hpre post s tr

theorem emit_stops_at_first_raising_handler_witness :
    ∃ sg', SimpleSignal.emit runE { handlers := [0, 1, 2] } [] =
      ((sg', ([] ++ [0]) ++ [1]), some "boom") :=
  emit_stops_at_first_raising_handler runE "boom" 1 [0] [2]
    { handlers := [0, 1, 2] } [] rfl
    (by
      intro h hmem sg tr'
      simp only [List.mem_singleton] at hmem
      subst hmem
      exact ⟨sg, rfl⟩)
    (fun sg tr' => ⟨sg, rfl⟩)

/-- C7: `connect` is an idempotent add — a callback already subscribed is
not added again and no error is raised (the operations are total), so
connecting twice equals connecting once; `disconnect(callback)` removes
that one callback from the list; `disconnect()` with no callback clears all
subscribers; disconnecting an absent callback leaves the list unchanged. -/
theorem connect_disconnect_algebra {H : Type} [DecidableEq H]
    (s : SimpleSignal H) (h : H) :
    (h ∈ s.handlers → s.connect h = s)
    ∧ (s.connect h).connect h = s.connect h
    ∧ (s.disconnect (some h)).handlers = s.handlers.erase h
    ∧ (h ∉ s.handlers → s.disconnect (some h) = s)
    ∧ (s.disconnect none).handlers = [] := by
  refine ⟨?_, connect_idem s h, ?_, ?_, rfl⟩
  · intro hm
    simp [SimpleSignal.connect, hm]
  · by_cases hm : h ∈ s.handlers
    · simp [SimpleSignal.disconnect, hm]
    · simp [SimpleSignal.disconnect, hm, List.erase_of_not_mem hm]
  · intro hm
    simp [SimpleSignal.disconnect, hm]

theorem connect_disconnect_algebra_witness :
    SimpleSignal.connect { handlers := [5] } 5 = { handlers := [5] }
    ∧ SimpleSignal.disconnect { handlers := [5] } (some 7) = { handlers := [5] } :=
  ⟨(connect_disconnect_algebra { handlers := [5] } 5).1 (by decide),
   (connect_disconnect_algebra { handlers := [5] } 7).2.2.2.1 (by decide)⟩

/-- C8: on both bus backends, `disconnect_all (some n)` clears the
subscriber list of exactly those Signals whose attribute name equals `n`,
across all three channel groups, and leaves every other Signal's
subscribers unchanged; `disconnect_all none` clears every Signal of every
group. -/
theorem disconnect_all_clears_exactly_matching_signals {H : Type}
    [DecidableEq H] (b : SimpleEventBus H) (qb : _EventBusBackend H)
    (n : String) :
    ((b.disconnect_all (some n)).system.system_error_occurred).handlers =
      (if "system_error_occurred" = n then [] else b.system.system_error_occurred.handlers)
    ∧ ((b.disconnect_all (some n)).system.system_notification_received).handlers =
      (if "system_notification_received" = n then [] else b.system.system_notification_received.handlers)
    ∧ ((b.disconnect_all (some n)).log.message).handlers =
      (if "message" = n then [] else b.log.message.handlers)
    ∧ ((b.disconnect_all (some n)).data.sequence_activity_changed).handlers =
      (if "sequence_activity_changed" = n then [] else b.data.sequence_activity_changed.handlers)
    ∧ ((b.disconnect_all (some n)).data.sequence_data_loaded).handlers =
      (if "sequence_data_loaded" = n then [] else b.data.sequence_data_loaded.handlers)
    ∧ ((b.disconnect_all none).system.system_error_occurred).handlers = []
    ∧ ((b.disconnect_all none).system.system_notification_received).handlers = []
    ∧ ((b.disconnect_all none).log.message).handlers = []
    ∧ ((b.disconnect_all none).data.sequence_activity_changed).handlers = []
    ∧ ((b.disconnect_all none).data.sequence_data_loaded).handlers = []
    ∧ ((qb.disconnect_all (some n)).system.system_error_occurred).handlers =
      (if "system_error_occurred" = n then [] else qb.system.system_error_occurred.handlers)
    ∧ ((qb.disconnect_all (some n)).system.system_notification_received).handlers =
      (if "system_notification_received" = n then [] else qb.system.system_notification_received.handlers)
    ∧ ((qb.disconnect_all (some n)).log.message).handlers =
      (if "message" = n then [] else qb.log.message.handlers)
    ∧ ((qb.disconnect_all (some n)).data.sequence_activity_changed).handlers =
      (if "sequence_activity_changed" = n then [] else qb.data.sequence_activity_changed.handlers)
    ∧ ((qb.disconnect_all (some n)).data.sequence_data_loaded).handlers =
      (if "sequence_data_loaded" = n then [] else qb.data.sequence_data_loaded.handlers)
    ∧ ((qb.disconnect_all none).system.system_error_occurred).handlers = []
    ∧ ((qb.disconnect_all none).system.system_notification_received).handlers = []
    ∧ ((qb.disconnect_all none).log.message).handlers = []
    ∧ ((qb.disconnect_all none).data.sequence_activity_changed).handlers = []
    ∧ ((qb.disconnect_all none).data.sequence_data_loaded).handlers = [] := by
  unfold SimpleEventBus.disconnect_all _EventBusBackend.disconnect_all
  simp [clearIf_some, clearIf_none]

/-- C9: any two separately constructed `SimpleEventBus` instances share the
very same underlying signal objects, because the signal-group dataclasses
declare their `SimpleSignal` fields with defaults evaluated once at
class-definition time.  Two instances constructed from any two heap states
hold identical addresses for every group/signal; hence a handler connected
through one bus's `log.message` appears among the invocations of an emit
performed through the other bus's `log.message`, and `disconnect_all` on
one bus clears a subscription made through the other. -/
theorem simple_bus_instances_share_signal_objects (w1 w2 : World Nat) :
    (SimpleEventBus.init w1).1 = (SimpleEventBus.init w2).1
    ∧ (∀ (st : Store Nat) (h : Nat),
        h ∈ (SimpleSignal.emit runRecord
              (connectAt st (SimpleEventBus.init w1).1.message h
                ((SimpleEventBus.init w2).1.message)) []).1.2)
    ∧ (∀ (st : Store Nat) (h : Nat),
        ((disconnectAllRefs (SimpleEventBus.init w1).1 (some "message")
            (connectAt st ((SimpleEventBus.init w2).1.message) h))
          ((SimpleEventBus.init w2).1.message)).handlers = []) := by
  refine ⟨rfl, ?_, ?_⟩
  · intro st h
    show h ∈ (SimpleSignal.emit runRecord (connectAt st 2 h 2) []).1.2
    have hread : connectAt st 2 h 2 = (st 2).connect h := by
      simp [connectAt, writeRef]
    rw [hread]
    obtain ⟨sg', heq⟩ := emitRun_ok runRecord (fun x sg tr => ⟨sg, rfl⟩)
      ((st 2).connect h).handlers ((st 2).connect h) []
    unfold SimpleSignal.emit
    rw [heq]
    simpa using connect_mem_self (st 2) h
  · intro st h
    show ((disconnectAllRefs classDefaults (some "message")
            (connectAt st 2 h)) 2).handlers = []
    rw [classDefaults_eq]
    unfold disconnectAllRefs
    rw [clearRefIf_ne (by decide), clearRefIf_ne (by decide)]
    rw [clearRefIf_eq_read]

/-- C3: when the registry entry for key `k` holds a thread that is still
running, `start_worker(worker, k, force_interrupt=False)` returns `None`
(rejected, not started), leaves the registry unchanged, performs no thread
operation (no interruption, quit, wait, terminate, and no new thread is
created or started — only a warning is logged), and leaves every thread's
state untouched. -/
theorem start_worker_rejects_duplicate_running_key
    (st : ServiceState) (k : String) (t w worker : Nat)
    (hk : k ≠ "")
    (hl : lookupW st.active_workers k = some (t, w))
    (hr : (st.threads t).running = true) :
    (start_worker st worker (some k) false).2 = none
    ∧ (start_worker st worker (some k) false).1.active_workers = st.active_workers
    ∧ (start_worker st worker (some k) false).1.threads = st.threads
    ∧ (start_worker st worker (some k) false).1.actions = st.actions
    ∧ (start_worker st worker (some k) false).1.nextThread = st.nextThread := by
  have hsetup : setup_worker_thread st worker (some k) false =
      ({ st with logs := st.logs ++ ["WARNING:duplicate-start-ignored"] }, none) := by
    unfold setup_worker_thread
    simp [truthyId, hk, hl, hr]
  unfold start_worker
  rw [hsetup]
  exact ⟨rfl, rfl, rfl, rfl, rfl⟩

theorem start_worker_rejects_duplicate_running_key_witness :
    (start_worker stRunning 200 (some "k") false).2 = none
    ∧ (start_worker stRunning 200 (some "k") false).1.active_workers = stRunning.active_workers
    ∧ (start_worker stRunning 200 (some "k") false).1.threads = stRunning.threads
    ∧ (start_worker stRunning 200 (some "k") false).1.actions = stRunning.actions
    ∧ (start_worker stRunning 200 (some "k") false).1.nextThread = stRunning.nextThread :=
  start_worker_rejects_duplicate_running_key stRunning "k" 0 100 200
    (by decide) rfl rfl

/-- C4: with a running entry under key `k`,
`start_worker(worker, k, force_interrupt=True)` tears the existing task
down via the graceful-stop path only: the thread operations performed are
exactly `requestInterruption`, `quit` and the bounded `wait(1000)` on the
existing thread, followed by moving the new worker onto the fresh thread
and starting it; `terminate` is never called (the count of terminate
actions is unchanged), regardless of whether the existing thread confirms
termination within the timeout (`st.env t` is unconstrained). -/
theorem force_interrupt_start_uses_graceful_teardown_only
    (st : ServiceState) (k : String) (t w worker : Nat)
    (hk : k ≠ "")
    (hl : lookupW st.active_workers k = some (t, w))
    (hr : (st.threads t).running = true)
    (hd : (st.threads t).deleted = false) :
    (start_worker st worker (some k) true).1.actions =
      st.actions ++
        [ThreadAct.requestInterruption t, ThreadAct.quit t,
         ThreadAct.wait t (some 1000), ThreadAct.moveToThread worker st.nextThread,
         ThreadAct.startThread st.nextThread]
    ∧ List.countP (fun a => isTerminate a)
        (start_worker st worker (some k) true).1.actions =
      List.countP (fun a => isTerminate a) st.actions
    ∧ (start_worker st worker (some k) true).2 = some st.nextThread := by
  have hstop : stopTarget { st with logs := st.logs ++ ["WARNING:interrupting-existing-worker"] }
      (some t) false =
      { st with
        logs :=
          (if st.env t then
            st.logs ++ ["WARNING:interrupting-existing-worker"] ++ ["INFO:stop-requested"]
          else
            st.logs ++ ["WARNING:interrupting-existing-worker"] ++ ["INFO:stop-requested"]
              ++ ["WARNING:thread-not-responding"]),
        threads :=
          (if st.env t then setThread st.threads t { st.threads t with running := false }
           else st.threads),
        actions := st.actions ++
          [ThreadAct.requestInterruption t, ThreadAct.quit t, ThreadAct.wait t (some 1000)] } := by
    unfold stopTarget
    simp only [hd, hr]
    by_cases he : st.env t <;> simp [he]
  have hmain : setup_worker_thread st worker (some k) true =
      (({ st with
          active_workers :=
            insertW (eraseW st.active_workers k) k st.nextThread worker,
          threads :=
            setThread
              (if st.env t then setThread st.threads t { st.threads t with running := false }
               else st.threads)
              st.nextThread { running := false, deleted := false },
          nextThread := st.nextThread + 1,
          actions := st.actions ++
            [ThreadAct.requestInterruption t, ThreadAct.quit t, ThreadAct.wait t (some 1000),
             ThreadAct.moveToThread worker st.nextThread],
          logs :=
            ((if st.env t then
                st.logs ++ ["WARNING:interrupting-existing-worker"] ++ ["INFO:stop-requested"]
              else
                st.logs ++ ["WARNING:interrupting-existing-worker"] ++ ["INFO:stop-requested"]
                  ++ ["WARNING:thread-not-responding"])
              ++ ["INFO:removed-from-registry"] ++ ["INFO:worker-registered"]) }),
        some (st.nextThread, worker)) := by
    unfold setup_worker_thread cleanup_worker
    simp only [truthyId, hk, if_neg hk, hl, hr, if_pos, ite_true, ne_eq,
      not_true_eq_false, if_false]
    rw [hstop]
    unfold containsW finish_setup
    by_cases he : st.env t <;>
      simp [he, hl, lookupW_eraseW, truthyId, hk, List.append_assoc]
  unfold start_worker
  rw [hmain]
  refine ⟨by simp [List.append_assoc], ?_, rfl⟩
  simp [List.countP_append, isTerminate, List.countP_cons]

theorem force_interrupt_start_uses_graceful_teardown_only_witness :
    (start_worker stRunning 200 (some "k") true).1.actions =
      stRunning.actions ++
        [ThreadAct.requestInterruption 0, ThreadAct.quit 0,
         ThreadAct.wait 0 (some 1000), ThreadAct.moveToThread 200 stRunning.nextThread,
         ThreadAct.startThread stRunning.nextThread]
    ∧ List.countP (fun a => isTerminate a)
        (start_worker stRunning 200 (some "k") true).1.actions =
      List.countP (fun a => isTerminate a) stRunning.actions
    ∧ (start_worker stRunning 200 (some "k") true).2 = some stRunning.nextThread :=
  force_interrupt_start_uses_graceful_teardown_only stRunning "k" 0 100 200
    (by decide) rfl rfl rfl

/-- C5 counterexample: the error message forwarded by `BaseWorker.run` is
`str(e)` of the raised exception, which is the empty string for a bare
`raise Exception()`.  The worker then emits exactly one failed completion
signal whose message has length `0`, falsifying the claim that the carried
error-message string is always non-empty. -/
theorem worker_failure_message_may_be_empty :
    BaseWorker.run (Except.error "") = [Emission.errorOccurred ""]
    ∧ ("" : String).length = 0 :=
  ⟨rfl, rfl⟩

/-- C5 amended: for every worker started under a key whose `process` body
raises, `run` emits the failed completion signal exactly once — carrying
`str(e)` of the exception, which may be empty — emits no finished signal,
and propagates nothing to the caller (`run` is total); firing the wired
error signal afterwards removes the key's entry from the registry. -/
theorem worker_failure_emits_failed_once_and_deregisters
    (st : ServiceState) (k : String) (t w : Nat) (msg : String)
    (hk : k ≠ "")
    (hl : lookupW st.active_workers k = some (t, w)) :
    BaseWorker.run (Except.error msg) = [Emission.errorOccurred msg]
    ∧ lookupW (fireErrorOccurred st (some k) msg).active_workers k = none := by
  refine ⟨rfl, ?_⟩
  unfold fireErrorOccurred cleanup_worker
  simp only [truthyId, if_neg hk]
  simp only [show lookupW ({ st with logs := st.logs ++ ["ERROR:" ++ msg] } :
    ServiceState).active_workers k = some (t, w) from hl]
  simp [containsW, stopTarget_registry, hl, lookupW_eraseW]

theorem worker_failure_emits_failed_once_and_deregisters_witness :
    BaseWorker.run (Except.error "boom") = [Emission.errorOccurred "boom"]
    ∧ lookupW (fireErrorOccurred stRunning (some "k") "boom").active_workers "k" = none :=
  worker_failure_emits_failed_once_and_deregisters stRunning "k" 0 100 "boom"
    (by decide) rfl

/-- C1: in the replacement race (`raceState`: worker `100` on thread `0` was
started under `"k"`, then a `force_interrupt` start replaced the entry with
worker `101` on thread `1` while thread `0` kept running), a stale cleanup
triggered by the old worker's *completion* signal does detect the thread
mismatch and no-ops — the registry still maps `"k"` to `(1, 101)` and the
new thread keeps running.  But a stale cleanup triggered by the old
worker's *failure* signal is wired as `_cleanup_worker(worker_id=...)`
without the old thread, so the identity check compares the stored (new)
thread with itself: the cleanup stops the new thread and removes the new
entry, contradicting the claimed no-op for old-worker failure signals. -/
theorem stale_error_cleanup_tears_down_replacement_worker :
    lookupW raceState.active_workers "k" = some (1, 101)
    ∧ (raceState.threads 1).running = true
    ∧ lookupW (fireTaskFinished raceState 0 100 (some "k")).active_workers "k" =
        some (1, 101)
    ∧ ((fireTaskFinished raceState 0 100 (some "k")).threads 1).running = true
    ∧ lookupW (fireErrorOccurred raceState (some "k") "boom").active_workers "k" = none
    ∧ ((fireErrorOccurred raceState (some "k") "boom").threads 1).running = false := by
  decide
